import Mathlib

/-!
Shallow embedding of the sol_factory Anchor program
(src/programs/sol_factory/src/context/airdrop_placeholder.rs,
 src/programs/sol_factory/src/context/create_placeholder.rs,
 src/programs/sol_factory/src/state.rs).

Machine integers: `u64` values are modelled as `Nat`; the one place the
source can wrap (`total_supply += 1`, `total_supply + 1`) is taken modulo
`2 ^ 64`.  Public keys are 32-byte values modelled as their byte lists.
Fallible paths return an explicit result type; a Rust panic (out-of-range
slice index) is the `crash` constructor.
-/

set_option maxRecDepth 40000

namespace SolFactory

/-- Public keys are 32-byte values; a key is modelled as its byte list
(`Pubkey::to_bytes` is then the identity, and `Pubkey::from` on a 32-byte
buffer is the buffer itself). -/
abbrev Pubkey := List Nat

/-- Modulus of the `u64` type. -/
def U64_MOD : Nat := 2 ^ 64

/-- Rust slice `&l[a..b]` as a list (meaningful when `b ≤ l.length`;
bounds are checked separately where the source can panic). -/
def slice (l : List Nat) (a b : Nat) : List Nat := (l.drop a).take (b - a)

/-- One instruction of the enclosing transaction, as seen through the
`instructions` sysvar: a target program id and an opaque data payload. -/
structure Instruction where
  program_id : Pubkey
  data : List Nat
deriving DecidableEq, Repr

/-- state.rs `WhiteList`. -/
structure WhiteList where
  wallets : List Pubkey
deriving DecidableEq, Repr

/-- state.rs `Collection`. -/
structure Collection where
  reference : Pubkey
  name : String
  symbol : String
  owner : Pubkey
  sale_start_time : Int
  max_supply : Nat
  total_supply : Nat
  price : Nat
  stable_id : String
  whitelist : WhiteList
  whitelist_start_time : Int
  whitelist_price : Nat
deriving DecidableEq, Repr

/-- state.rs `Placeholder`. -/
structure Placeholder where
  id : Nat
  collection : Pubkey
  reference : String
  name : String
  price : Nat
  time_stamp : Int
deriving DecidableEq, Repr

/-- Error taxonomy of the two entry points.  The source splits these over
`ProtocolError` and `BuyingError` (`SoldOut`); `External` stands for an
error propagated by `?` from a delegated token-program call (for example
`mint_to` when the mint authority is already gone). -/
inductive PErr where
  | ProtocolLocked
  | UnauthorizedAdmin
  | SoldOut
  | InstructionsNotCorrect
  | InvalidBalancePostMint
  | External
deriving DecidableEq, Repr

/-- Result of running an instruction handler: `crash` is a Rust panic
(unwinding, no `Result` returned), `err` an `Err(...)` return, `ok` a
successful return carrying the state the handler committed. -/
inductive ProgResult (α : Type) where
  | crash
  | err (e : PErr)
  | ok (a : α)
deriving DecidableEq, Repr

/-- Accounts and environment fixed for one `airdrop` call.
`admin_wallet` models `constant::admin_wallet::id()` and
`ed25519_program` models `Pubkey::from_str(ED25519_PROGRAM_ID)`, constants
from the crate's `constant` module (not among the provided sources), kept
abstract as parameters.  `ixs` is the enclosing transaction's instruction
list and `current_index` the handler's own position in it
(`load_current_index_checked`). -/
structure AirdropEnv where
  buyer : Pubkey
  payer : Pubkey
  auth : Pubkey
  admin_wallet : Pubkey
  ed25519_program : Pubkey
  locked : Bool
  ixs : List Instruction
  current_index : Nat
deriving DecidableEq, Repr

/-- Mutable token-side state of one placeholder's mint: the mint
authority (`None` once revoked) and the buyer's associated token account
balance (`none` while the account does not exist yet). -/
structure MintState where
  mint_authority : Option Pubkey
  ata_amount : Option Nat
deriving DecidableEq, Repr

/-- airdrop_placeholder.rs `AirdropPlaceholder::airdrop`, lines 91-244.
Checks run in source order: `ProtocolLocked`, payer = admin wallet,
sold-out guard (`require!(max_supply > total_supply)` fails exactly when
`max_supply ≤ total_supply`), then instruction introspection.  At index 0
the handler returns `Ok(())` without touching any state.  Otherwise the
preceding instruction must come from the ed25519 program; its payload is
sliced at fixed offsets ([16,48) signer bytes, [112,144) embedded
recipient), and a payload too short for a slice panics.  On the valid
path the handler creates the buyer's token account if absent, mints one
unit (a delegated call that fails unless the mint authority is the `auth`
account), increments `total_supply` (mod 2^64), revokes the mint
authority, and requires the post-mint balance to be exactly 1. -/
def airdrop (env : AirdropEnv) (col : Collection) (m : MintState) :
    ProgResult (Collection × MintState) :=
  if env.locked = true then .err .ProtocolLocked
  else if env.payer ≠ env.admin_wallet then .err .UnauthorizedAdmin
  else if col.max_supply ≤ col.total_supply then .err .SoldOut
  else if 0 < env.current_index then
    match env.ixs[env.current_index - 1]? with
    | none => .err .InstructionsNotCorrect
    | some ix =>
      if ix.program_id = env.ed25519_program then
        if ix.data.length < 48 then .crash
        else if env.admin_wallet ≠ slice ix.data 16 48 then .err .UnauthorizedAdmin
        else if ix.data.length < 144 then .crash
        else if slice ix.data 112 144 ≠ env.buyer then .err .UnauthorizedAdmin
        else
          match m.mint_authority with
          | none => .err .External
          | some a =>
            if a = env.auth then
              let amount := m.ata_amount.getD 0 + 1
              if amount = 1 then
                .ok ({ col with total_supply := (col.total_supply + 1) % U64_MOD },
                     { mint_authority := none, ata_amount := some amount })
              else .err .InvalidBalancePostMint
            else .err .External
      else .err .InstructionsNotCorrect
  else .ok (col, m)

/-- Transaction-level semantics of one `airdrop` call: an `Err` return or
a panic aborts the enclosing transaction, so every mutation rolls back
and the pre-state survives; only an `Ok` return commits. -/
def runAirdrop (env : AirdropEnv) (col : Collection) (m : MintState) :
    Collection × MintState :=
  match airdrop env col m with
  | .ok r => r
  | _ => (col, m)

/-- Display form of a public key used where the source calls
`.to_string()` on a `Pubkey` (the base58 rendering itself lives in the
out-of-scope SDK; any injective rendering serves the spec's claims). -/
def pubkeyToString (k : Pubkey) : String := toString k

/-- Accounts and environment fixed for one `create` call.  `now` is
`Clock::get()?.unix_timestamp` (the clock is read twice in the source,
within one transaction, hence one value). -/
structure CreateEnv where
  admin : Pubkey
  admin_state_pk : Pubkey
  auth : Pubkey
  mint : Pubkey
  collection_key : Pubkey
  locked : Bool
  now : Int
deriving DecidableEq, Repr

/-- spl_token_metadata_interface `TokenMetadata`, as populated by
create_placeholder.rs lines 114-128. -/
structure TokenMetadata where
  update_authority : Pubkey
  mint : Pubkey
  name : String
  symbol : String
  uri : String
  additional_metadata : List (String × String)
deriving DecidableEq, Repr

/-- State committed by a successful `create` call: the placeholder
record written by `set_inner` and the metadata record written to the
mint (base fields by one delegated call, then one `update_field` call
per `additional_metadata` entry, iterated in list order). -/
structure CreateOk where
  placeholder : Placeholder
  metadata : TokenMetadata
deriving DecidableEq, Repr

/-- create_placeholder.rs `CreatePlaceholder::create`, lines 70-253.
Checks in source order: `ProtocolLocked`, `admin_state.publickey` equals
the signing admin, then the supply guard `total_supply > max_supply`
(strictly greater, so a collection exactly at its ceiling passes).  All
three fire before the placeholder record or the mint account is built.
On success the placeholder record copies `reference` (as a string),
`name` and `price` from the collection; the metadata name is the literal
"Placeholder for" concatenated with the collection name, and the six
additional fields are listed in source order with
`_count = total_supply + 1` (mod 2^64). -/
def create (env : CreateEnv) (col : Collection) (id : Nat) (uri : String) :
    Except PErr CreateOk :=
  if env.locked = true then .error .ProtocolLocked
  else if env.admin_state_pk ≠ env.admin then .error .UnauthorizedAdmin
  else if col.max_supply < col.total_supply then .error .SoldOut
  else
    let ph : Placeholder :=
      { id := id
        collection := env.collection_key
        reference := pubkeyToString col.reference
        name := col.name
        price := col.price
        time_stamp := env.now }
    let count := (col.total_supply + 1) % U64_MOD
    let md : TokenMetadata :=
      { update_authority := env.auth
        mint := env.mint
        name := "Placeholder for" ++ col.name
        symbol := col.symbol
        uri := uri
        additional_metadata :=
          [("id", toString id),
           ("count", toString count),
           ("timestamp", toString env.now),
           ("price", toString col.price),
           ("collection", col.name),
           ("collection key", pubkeyToString env.collection_key)] }
    .ok { placeholder := ph, metadata := md }

deriving instance DecidableEq for Except

/-- One operation on a collection's shared state: an issuance or a
claim, each with its per-call environment. -/
inductive Op where
  | issue (env : CreateEnv) (id : Nat) (uri : String)
  | claim (env : AirdropEnv) (m : MintState)

/-- Effect of one operation on the collection record.  `create` reads
the collection but writes none of its fields (its committed state,
`CreateOk`, contains no collection), so an issuance leaves it unchanged;
a claim commits `runAirdrop`'s collection component. -/
def applyOp (col : Collection) (op : Op) : Collection :=
  match op with
  | .issue _ _ _ => col
  | .claim env m => (runAirdrop env col m).1

/-! Concrete inputs used by witnesses and counterexamples. -/

/-- Sample admin wallet key. -/
def adminPk : Pubkey := List.replicate 32 7

/-- Sample buyer key. -/
def buyerPk : Pubkey := List.replicate 32 9

/-- Sample ed25519 program id. -/
def edPk : Pubkey := List.replicate 32 3

/-- Sample `auth` PDA key. -/
def authPk : Pubkey := List.replicate 32 4

/-- Sample collection, 0 of 100 claimed. -/
def col0 : Collection :=
  { reference := List.replicate 32 1
    name := "X"
    symbol := "S"
    owner := List.replicate 32 2
    sale_start_time := 0
    max_supply := 100
    total_supply := 0
    price := 5
    stable_id := "sid"
    whitelist := { wallets := [] }
    whitelist_start_time := 0
    whitelist_price := 0 }

/-- Sample collection exactly at its supply ceiling. -/
def colFull : Collection := { col0 with total_supply := 100 }

/-- Fresh mint state as issuance leaves it: authority is the `auth`
PDA, the buyer's token account does not exist yet. -/
def mint0 : MintState := { mint_authority := some authPk, ata_amount := none }

/-- A 144-byte ed25519 payload whose signer bytes [16,48) are the admin
wallet and whose embedded recipient bytes [112,144) are the buyer. -/
def goodData : List Nat :=
  List.replicate 16 0 ++ adminPk ++ List.replicate 64 0 ++ buyerPk

/-- A 144-byte payload with correct signer bytes but an all-zero
embedded recipient. -/
def badBuyerData : List Nat :=
  List.replicate 16 0 ++ adminPk ++ List.replicate 96 0

/-- A 144-byte payload whose signer bytes are not the admin wallet. -/
def badSignerData : List Nat := List.replicate 144 0

/-- A 100-byte payload: long enough for the [16,48) slice (signer bytes
match the admin wallet) but too short for [112,144). -/
def shortData1 : List Nat := List.replicate 16 0 ++ adminPk ++ List.replicate 52 0

/-- A 20-byte payload: too short even for the [16,48) slice. -/
def shortData2 : List Nat := List.replicate 20 1

/-- Airdrop environment builder around one preceding instruction at
index 0, the handler itself at index 1. -/
def envWith (d : List Nat) : AirdropEnv :=
  { buyer := buyerPk
    payer := adminPk
    auth := authPk
    admin_wallet := adminPk
    ed25519_program := edPk
    locked := false
    ixs := [{ program_id := edPk, data := d }]
    current_index := 1 }

/-- Valid-claim environment. -/
def envOk : AirdropEnv := envWith goodData

/-- Environment whose preceding instruction embeds the wrong recipient. -/
def envBadBuyer : AirdropEnv := envWith badBuyerData

/-- Environment whose preceding instruction has wrong signer bytes. -/
def envBadSigner : AirdropEnv := envWith badSignerData

/-- Environment whose preceding instruction is not from the ed25519
program. -/
def envWrongProg : AirdropEnv :=
  { envOk with ixs := [{ program_id := List.replicate 32 8, data := goodData }] }

/-- Environment at transaction index 0 (the no-op path). -/
def envIdx0 : AirdropEnv := { envOk with current_index := 0 }

/-- Environment with the truncated 100-byte payload. -/
def envShort1 : AirdropEnv := envWith shortData1

/-- Environment with the truncated 20-byte payload. -/
def envShort2 : AirdropEnv := envWith shortData2

/-- Sample issuance environment (admin state matches the signer). -/
def cenv0 : CreateEnv :=
  { admin := adminPk
    admin_state_pk := adminPk
    auth := authPk
    mint := List.replicate 32 5
    collection_key := List.replicate 32 6
    locked := false
    now := 1700000000 }

/-- Record committed by `create cenv0 col0 1 "u"`. -/
def r8 : CreateOk :=
  { placeholder :=
      { id := 1
        collection := List.replicate 32 6
        reference := pubkeyToString col0.reference
        name := "X"
        price := 5
        time_stamp := 1700000000 }
    metadata :=
      { update_authority := authPk
        mint := List.replicate 32 5
        name := "Placeholder forX"
        symbol := "S"
        uri := "u"
        additional_metadata :=
          [("id", "1"), ("count", "1"), ("timestamp", "1700000000"),
           ("price", "5"), ("collection", "X"),
           ("collection key", pubkeyToString (List.replicate 32 6))] } }

/-! Theorems. -/

/-- Helper: every `Ok` return of `airdrop` is either the untouched
pre-state (the index-0 path) or the minted post-state, and the latter is
reachable only when the strict sold-out guard passed, the mint authority
was the `auth` account, and the buyer's token account held 0 (or did not
exist). -/
theorem airdrop_ok_cases (env : AirdropEnv) (col : Collection) (m : MintState)
    (r : Collection × MintState) (h : airdrop env col m = .ok r) :
    r = (col, m) ∨
    (col.total_supply < col.max_supply ∧
     m.mint_authority = some env.auth ∧
     m.ata_amount.getD 0 = 0 ∧
     r = ({ col with total_supply := (col.total_supply + 1) % U64_MOD },
          { mint_authority := none, ata_amount := some 1 })) := by
  unfold airdrop at h
  by_cases h1 : env.locked = true
  · rw [if_pos h1] at h; cases h
  rw [if_neg h1] at h
  by_cases h2 : env.payer ≠ env.admin_wallet
  · rw [if_pos h2] at h; cases h
  rw [if_neg h2] at h
  by_cases h3 : col.max_supply ≤ col.total_supply
  · rw [if_pos h3] at h; cases h
  rw [if_neg h3] at h
  by_cases h4 : 0 < env.current_index
  case neg => rw [if_neg h4] at h; cases h; exact Or.inl rfl
  rw [if_pos h4] at h
  rcases hget : env.ixs[env.current_index - 1]? with _ | ix
  · rw [hget] at h; cases h
  rw [hget] at h
  dsimp only at h
  by_cases h5 : ix.program_id = env.ed25519_program
  case neg => rw [if_neg h5] at h; cases h
  rw [if_pos h5] at h
  by_cases h6 : ix.data.length < 48
  · rw [if_pos h6] at h; cases h
  rw [if_neg h6] at h
  by_cases h7 : env.admin_wallet ≠ slice ix.data 16 48
  · rw [if_pos h7] at h; cases h
  rw [if_neg h7] at h
  by_cases h8 : ix.data.length < 144
  · rw [if_pos h8] at h; cases h
  rw [if_neg h8] at h
  by_cases h9 : slice ix.data 112 144 ≠ env.buyer
  · rw [if_pos h9] at h; cases h
  rw [if_neg h9] at h
  rcases hauth : m.mint_authority with _ | a
  · rw [hauth] at h; cases h
  rw [hauth] at h
  dsimp only at h
  by_cases h10 : a = env.auth
  case neg => rw [if_neg h10] at h; cases h
  rw [if_pos h10] at h
  by_cases h11 : m.ata_amount.getD 0 + 1 = 1
  case neg => rw [if_neg h11] at h; cases h
  rw [if_pos h11] at h
  cases h
  exact Or.inr ⟨Nat.lt_of_not_le h3, by simp [hauth, h10], by omega, by simp [h11]⟩

/-- C3: a claim call sitting at position 0 of its transaction, with all
entry guards passing (protocol unlocked, payer is the admin wallet,
strict supply guard satisfied), returns success and performs no mint, no
token-account creation, no supply change and no authority change: the
committed state is exactly the pre-state. -/
theorem claim_C3_index_zero_noop (env : AirdropEnv) (col : Collection) (m : MintState)
    (hlock : env.locked = false)
    (hpayer : env.payer = env.admin_wallet)
    (hsupply : col.total_supply < col.max_supply)
    (hidx : env.current_index = 0) :
    airdrop env col m = .ok (col, m) := by
  unfold airdrop
  simp [hlock, hpayer, hidx, Nat.not_le.mpr hsupply]

/-- Witness for C3 at a concrete index-0 call. -/
theorem claim_C3_index_zero_noop_w :
    airdrop envIdx0 col0 mint0 = .ok (col0, mint0) :=
  claim_C3_index_zero_noop envIdx0 col0 mint0 rfl rfl (by decide) rfl

/-- C4: a claim call at transaction index >= 1 (entry guards passing)
whose preceding instruction cannot be fetched, or is not targeted at the
ed25519 signature-verification program, fails with
`InstructionsNotCorrect`, and the committed state is the unchanged
pre-state. -/
theorem claim_C4_wrong_preceding_instruction (env : AirdropEnv) (col : Collection)
    (m : MintState)
    (hlock : env.locked = false)
    (hpayer : env.payer = env.admin_wallet)
    (hsupply : col.total_supply < col.max_supply)
    (hidx : 0 < env.current_index)
    (hbad : env.ixs[env.current_index - 1]? = none ∨
      ∃ ix, env.ixs[env.current_index - 1]? = some ix ∧
        ix.program_id ≠ env.ed25519_program) :
    airdrop env col m = .err .InstructionsNotCorrect ∧
    runAirdrop env col m = (col, m) := by
  have hmain : airdrop env col m = .err .InstructionsNotCorrect := by
    unfold airdrop
    rcases hbad with hnone | ⟨ix, hsome, hprog⟩
    · simp [hlock, hpayer, Nat.not_le.mpr hsupply, hidx, hnone]
    · simp [hlock, hpayer, Nat.not_le.mpr hsupply, hidx, hsome, hprog]
  exact ⟨hmain, by unfold runAirdrop; rw [hmain]⟩

/-- Witness for C4 at a concrete call whose preceding instruction comes
from a program other than the ed25519 program. -/
theorem claim_C4_wrong_preceding_instruction_w :
    airdrop envWrongProg col0 mint0 = .err .InstructionsNotCorrect ∧
    runAirdrop envWrongProg col0 mint0 = (col0, mint0) :=
  claim_C4_wrong_preceding_instruction envWrongProg col0 mint0 rfl rfl (by decide)
    (by decide) (Or.inr ⟨{ program_id := List.replicate 32 8, data := goodData }, rfl, by decide⟩)

/-- C5: the sold-out guard of the claim path.  Part one: a locked
protocol fails with `ProtocolLocked` even when sold out, and part two: a
payer other than the admin wallet fails with `UnauthorizedAdmin` even
when sold out — so the `SoldOut` check is evaluated after those two.
Part three: with those two passing and `total_supply = max_supply` the
call fails with `SoldOut` and commits nothing; the statement holds for
every instruction list and index, so the failure precedes any inspection
of the transaction's instruction list. -/
theorem claim_C5_soldout_after_guards (env : AirdropEnv) (col : Collection) (m : MintState) :
    (env.locked = true → airdrop env col m = .err .ProtocolLocked) ∧
    (env.locked = false → env.payer ≠ env.admin_wallet →
      airdrop env col m = .err .UnauthorizedAdmin) ∧
    (env.locked = false → env.payer = env.admin_wallet →
      col.total_supply = col.max_supply →
      airdrop env col m = .err .SoldOut ∧ runAirdrop env col m = (col, m)) := by
  refine ⟨?_, ?_, ?_⟩
  · intro h1
    unfold airdrop
    simp [h1]
  · intro h1 h2
    unfold airdrop
    simp [h1, h2]
  · intro h1 h2 h3
    have hmain : airdrop env col m = .err .SoldOut := by
      unfold airdrop
      simp [h1, h2, le_of_eq h3.symm]
    exact ⟨hmain, by unfold runAirdrop; rw [hmain]⟩

/-- Witness for C5 at a concrete call on a collection exactly at its
ceiling, with an instruction list that would otherwise let the claim
succeed. -/
theorem claim_C5_soldout_after_guards_w :
    airdrop envOk colFull mint0 = .err .SoldOut ∧
    runAirdrop envOk colFull mint0 = (colFull, mint0) :=
  (claim_C5_soldout_after_guards envOk colFull mint0).2.2 rfl rfl rfl

/-- C10: with a preceding ed25519 instruction whose payload is shorter
than 144 bytes, the fixed-offset slices are out of bounds and the
handler panics instead of returning an error: here once with a 100-byte
payload (the [112,144) slice out of range after the signer bytes
matched) and once with a 20-byte payload (already the [16,48) slice out
of range); a 144-byte payload on the same call shape does not panic. -/
theorem claim_C10_short_payload_crash :
    airdrop envShort1 col0 mint0 = .crash ∧
    airdrop envShort2 col0 mint0 = .crash ∧
    airdrop envOk col0 mint0 ≠ .crash := by decide

/-- C1: a claim call at transaction index >= 1 whose preceding
instruction targets the ed25519 signature-verification program (entry
guards passing, payload long enough for the accessed ranges) fails with
`UnauthorizedAdmin` when the payload's signer bytes [16,48) differ from
the admin wallet's bytes, and likewise when the signer bytes match but
the 32-byte key at [112,144) differs from the caller-supplied buyer; in
both cases the committed `total_supply` is unchanged. -/
theorem claim_C1_unauthorized_claim (env : AirdropEnv) (col : Collection) (m : MintState)
    (ix : Instruction)
    (hlock : env.locked = false)
    (hpayer : env.payer = env.admin_wallet)
    (hsupply : col.total_supply < col.max_supply)
    (hidx : 0 < env.current_index)
    (hix : env.ixs[env.current_index - 1]? = some ix)
    (hprog : ix.program_id = env.ed25519_program)
    (hbad : (48 ≤ ix.data.length ∧ env.admin_wallet ≠ slice ix.data 16 48) ∨
            (144 ≤ ix.data.length ∧ env.admin_wallet = slice ix.data 16 48 ∧
             slice ix.data 112 144 ≠ env.buyer)) :
    airdrop env col m = .err .UnauthorizedAdmin ∧
    (runAirdrop env col m).1.total_supply = col.total_supply := by
  have hmain : airdrop env col m = .err .UnauthorizedAdmin := by
    unfold airdrop
    rcases hbad with ⟨hlen, hne⟩ | ⟨hlen, heq, hne⟩
    · simp [hlock, hpayer, Nat.not_le.mpr hsupply, hidx, hix, hprog,
        Nat.not_lt.mpr hlen, hne]
    · have h48 : ¬ ix.data.length < 48 := Nat.not_lt.mpr (le_trans (by norm_num) hlen)
      simp [hlock, hpayer, Nat.not_le.mpr hsupply, hidx, hix, hprog, heq, h48,
        Nat.not_lt.mpr hlen, hne]
  exact ⟨hmain, by unfold runAirdrop; rw [hmain]⟩

/-- Witness for C1 at a concrete call whose payload embeds an all-zero
recipient instead of the buyer. -/
theorem claim_C1_unauthorized_claim_w :
    airdrop envBadBuyer col0 mint0 = .err .UnauthorizedAdmin ∧
    (runAirdrop envBadBuyer col0 mint0).1.total_supply = col0.total_supply :=
  claim_C1_unauthorized_claim envBadBuyer col0 mint0
    { program_id := edPk, data := badBuyerData } rfl rfl (by decide) (by decide) rfl rfl
    (Or.inr ⟨by decide, by decide, by decide⟩)

/-- C2: a claim call with all entry guards passing, a preceding ed25519
instruction whose payload names the admin wallet as signer and the buyer
as recipient, a mint whose authority is still the `auth` account and a
buyer token account absent (or empty), succeeds; the committed state has
the buyer's token account balance exactly 1, `total_supply` incremented
by exactly 1, and the mint authority absent.  Moreover (second part)
once the mint authority is absent no later claim call can change any
state: every outcome on the post-claim mint commits the pre-state. -/
theorem claim_C2_valid_claim (env : AirdropEnv) (col : Collection) (m : MintState)
    (ix : Instruction)
    (hlock : env.locked = false)
    (hpayer : env.payer = env.admin_wallet)
    (hsupply : col.total_supply < col.max_supply)
    (hidx : 0 < env.current_index)
    (hix : env.ixs[env.current_index - 1]? = some ix)
    (hprog : ix.program_id = env.ed25519_program)
    (hlen : 144 ≤ ix.data.length)
    (hsig : env.admin_wallet = slice ix.data 16 48)
    (hmsg : slice ix.data 112 144 = env.buyer)
    (hauth : m.mint_authority = some env.auth)
    (hbal : m.ata_amount.getD 0 = 0)
    (hwf : col.max_supply < U64_MOD) :
    airdrop env col m =
      .ok ({ col with total_supply := col.total_supply + 1 },
           { mint_authority := none, ata_amount := some 1 }) ∧
    (∀ env2 col2, runAirdrop env2 col2 { mint_authority := none, ata_amount := some 1 } =
      (col2, { mint_authority := none, ata_amount := some 1 })) := by
  constructor
  · have h48 : ¬ ix.data.length < 48 := Nat.not_lt.mpr (le_trans (by norm_num) hlen)
    unfold airdrop
    simp [hlock, hpayer, Nat.not_le.mpr hsupply, hidx, hix, hprog, hsig, h48,
      Nat.not_lt.mpr hlen, hmsg, hauth, hbal,
      Nat.mod_eq_of_lt (lt_of_le_of_lt (Nat.succ_le_of_lt hsupply) hwf)]
  · intro env2 col2
    unfold runAirdrop
    rcases hres : airdrop env2 col2 { mint_authority := none, ata_amount := some 1 }
      with _ | e | r
    · rfl
    · rfl
    · rcases airdrop_ok_cases _ _ _ _ hres with h | ⟨_, habs, _, _⟩
      · rw [h]
      · simp at habs

/-- Witness for C2 at a concrete valid claim on a fresh placeholder. -/
theorem claim_C2_valid_claim_w :
    airdrop envOk col0 mint0 =
      .ok ({ col0 with total_supply := col0.total_supply + 1 },
           { mint_authority := none, ata_amount := some 1 }) ∧
    (∀ env2 col2, runAirdrop env2 col2 { mint_authority := none, ata_amount := some 1 } =
      (col2, { mint_authority := none, ata_amount := some 1 })) :=
  claim_C2_valid_claim envOk col0 mint0 { program_id := edPk, data := goodData } rfl rfl
    (by decide) (by decide) rfl rfl (by decide) (by decide) (by decide) rfl rfl (by decide)

/-- C6: the issuance supply guard raises `SoldOut` exactly when the
protocol is unlocked, the admin-state key matches the signer, and
`total_supply` strictly exceeds `max_supply` (the two earlier guards
win otherwise, so the check follows them and an error means no record
was built); in particular a collection exactly at its ceiling passes
the guard and the call succeeds. -/
theorem claim_C6_issuance_soldout_guard (env : CreateEnv) (col : Collection)
    (id : Nat) (uri : String) :
    ((create env col id uri = .error .SoldOut) ↔
      (env.locked = false ∧ env.admin_state_pk = env.admin ∧
       col.max_supply < col.total_supply)) ∧
    (env.locked = false → env.admin_state_pk = env.admin →
      col.total_supply = col.max_supply → (create env col id uri).isOk = true) := by
  constructor
  · by_cases h1 : env.locked = true
    · unfold create
      simp [h1]
    · have h1' : env.locked = false := by simpa using h1
      by_cases h2 : env.admin_state_pk = env.admin
      · by_cases h3 : col.max_supply < col.total_supply
        · unfold create
          simp [h1, h2, h3, h1']
        · unfold create
          simp [h1, h2, h3]
      · unfold create
        simp [h1, h2]
  · intro h1 h2 h3
    unfold create
    simp [h1, h2, Nat.not_lt.mpr (le_of_eq h3), Except.isOk, Except.toBool]

/-- Witness for C6: issuance on a collection exactly at its supply
ceiling succeeds. -/
theorem claim_C6_issuance_soldout_guard_w :
    (create cenv0 colFull 1 "u").isOk = true :=
  (claim_C6_issuance_soldout_guard cenv0 colFull 1 "u").2 rfl rfl rfl

/-- C8 as stated is false on the code: a successful issuance writes the
metadata name "Placeholder for" immediately concatenated with the
collection name, with no space in between, so for a collection named
"X" the name is "Placeholder forX" and not "Placeholder for X". -/
theorem claim_C8_counterexample :
    (create cenv0 col0 1 "u").toOption.map (fun r => r.metadata.name) =
      some "Placeholder forX" ∧
    "Placeholder forX" ≠ "Placeholder for " ++ col0.name := by decide

/-- C8 amended: for every successful issuance the metadata name is the
literal "Placeholder for" (no trailing space) concatenated with the
collection's name, the symbol is the collection's symbol, the uri is
the caller-supplied uri, and the update authority is the protocol's
`auth` account. -/
theorem claim_C8_metadata_base_fields (env : CreateEnv) (col : Collection)
    (id : Nat) (uri : String) (r : CreateOk)
    (h : create env col id uri = .ok r) :
    r.metadata.name = "Placeholder for" ++ col.name ∧
    r.metadata.symbol = col.symbol ∧
    r.metadata.uri = uri ∧
    r.metadata.update_authority = env.auth := by
  unfold create at h
  split_ifs at h
  all_goals cases h
  exact ⟨rfl, rfl, rfl, rfl⟩

/-- Witness for the amended C8 at a concrete issuance. -/
theorem claim_C8_metadata_base_fields_w :
    r8.metadata.name = "Placeholder for" ++ col0.name ∧
    r8.metadata.symbol = col0.symbol ∧
    r8.metadata.uri = "u" ∧
    r8.metadata.update_authority = cenv0.auth :=
  claim_C8_metadata_base_fields cenv0 col0 1 "u" r8 (by decide)

/-- C9: every successful issuance appends exactly six additional
metadata fields (the source loops over this list issuing one
`update_field` call per entry), in the fixed order id, running count
(`total_supply + 1`), creation timestamp, price, collection name,
collection address. -/
theorem claim_C9_additional_fields (env : CreateEnv) (col : Collection)
    (id : Nat) (uri : String) (r : CreateOk)
    (h : create env col id uri = .ok r)
    (hwf : col.total_supply + 1 < U64_MOD) :
    r.metadata.additional_metadata =
      [("id", toString id),
       ("count", toString (col.total_supply + 1)),
       ("timestamp", toString env.now),
       ("price", toString col.price),
       ("collection", col.name),
       ("collection key", pubkeyToString env.collection_key)] ∧
    r.metadata.additional_metadata.length = 6 := by
  unfold create at h
  split_ifs at h
  all_goals cases h
  refine ⟨?_, rfl⟩
  simp [Nat.mod_eq_of_lt hwf]

/-- Witness for C9 at a concrete issuance. -/
theorem claim_C9_additional_fields_w :
    r8.metadata.additional_metadata =
      [("id", toString 1),
       ("count", toString (col0.total_supply + 1)),
       ("timestamp", toString cenv0.now),
       ("price", toString col0.price),
       ("collection", col0.name),
       ("collection key", pubkeyToString cenv0.collection_key)] ∧
    r8.metadata.additional_metadata.length = 6 :=
  claim_C9_additional_fields cenv0 col0 1 "u" r8 (by decide) (by decide)

/-- Helper: the collection committed by one claim call is either
untouched or, when the strict guard had passed, the pre-state with
`total_supply` bumped by one (mod 2^64). -/
theorem runAirdrop_fst (env : AirdropEnv) (col : Collection) (m : MintState) :
    (runAirdrop env col m).1 = col ∨
    (col.total_supply < col.max_supply ∧
     (runAirdrop env col m).1 =
       { col with total_supply := (col.total_supply + 1) % U64_MOD }) := by
  unfold runAirdrop
  rcases hres : airdrop env col m with _ | e | r
  · exact Or.inl rfl
  · exact Or.inl rfl
  · rcases airdrop_ok_cases _ _ _ _ hres with h | ⟨hlt, _, _, h⟩
    · exact Or.inl (by rw [h])
    · exact Or.inr ⟨hlt, by rw [h]⟩

/-- Helper: one operation keeps the supply ceiling and keeps
`total_supply` at or below the pre-state ceiling. -/
theorem applyOp_max_total (col : Collection) (op : Op)
    (hwf : col.max_supply < U64_MOD)
    (hinv : col.total_supply ≤ col.max_supply) :
    (applyOp col op).max_supply = col.max_supply ∧
    (applyOp col op).total_supply ≤ col.max_supply := by
  cases op with
  | issue env id uri => exact ⟨rfl, hinv⟩
  | claim env m =>
    show (runAirdrop env col m).1.max_supply = col.max_supply ∧
      (runAirdrop env col m).1.total_supply ≤ col.max_supply
    rcases runAirdrop_fst env col m with h | ⟨hlt, h⟩
    · rw [h]
      exact ⟨rfl, hinv⟩
    · rw [h]
      have hle : col.total_supply + 1 ≤ col.max_supply := hlt
      refine ⟨rfl, ?_⟩
      show (col.total_supply + 1) % U64_MOD ≤ col.max_supply
      rw [Nat.mod_eq_of_lt (lt_of_le_of_lt hle hwf)]
      exact hle

/-- C7: the invariant `total_supply <= max_supply` is preserved by every
sequence of issuance and claim operations: an issuance commits no
collection change at all, and a claim bumps `total_supply` only after
the strict guard passed, so from any state satisfying the invariant
(with a `u64`-valid ceiling) every reachable state satisfies it. -/
theorem claim_C7_supply_invariant (col : Collection) (ops : List Op)
    (hwf : col.max_supply < U64_MOD)
    (hinv : col.total_supply ≤ col.max_supply) :
    (ops.foldl applyOp col).total_supply ≤ (ops.foldl applyOp col).max_supply := by
  induction ops generalizing col with
  | nil => simpa using hinv
  | cons op rest ih =>
    have h := applyOp_max_total col op hwf hinv
    have hwf' : (applyOp col op).max_supply < U64_MOD := by
      rw [h.1]
      exact hwf
    have hinv' : (applyOp col op).total_supply ≤ (applyOp col op).max_supply := by
      rw [h.1]
      exact h.2
    simpa using ih (applyOp col op) hwf' hinv'

/-- Witness for C7 on a concrete two-operation history (one successful
claim, then one issuance). -/
theorem claim_C7_supply_invariant_w :
    (([Op.claim envOk mint0, Op.issue cenv0 1 "u"].foldl applyOp col0).total_supply ≤
     ([Op.claim envOk mint0, Op.issue cenv0 1 "u"].foldl applyOp col0).max_supply) :=
  claim_C7_supply_invariant col0 [Op.claim envOk mint0, Op.issue cenv0 1 "u"]
    (by decide) (by decide)

end SolFactory
